import Mathlib

/-!
Shallow embedding of the compliance-evaluation pipeline of this repository
(backend/analyzer.py, backend/evaluator.py, backend/main.py), together with
theorems settling the specification claims about it.

Conventions of the embedding:
* Python dictionaries with fixed key sets become Lean structures; a key that a
  given code path may leave absent becomes an `Option` field, and the Python
  idiom `d.get(key, default)` becomes `field.getD default`.
* Numeric scores are rationals (`ℚ`); Python `round(x, 1)` is modelled by
  `pyRound1` (round half to even at one decimal, Python's rounding mode).
* Python's stable `list.sort` / `sorted` is modelled by `List.mergeSort`,
  which is stable, with the comparison the code passes; `reverse=True`
  becomes the flipped comparison.
* External LLM calls are inputs of the embedded functions: each stage takes an
  `Except String <parsed payload>` representing either the parsed response or
  the exception escaping the retry wrapper, exactly the two ways control can
  leave the corresponding `try` block in the source.
-/

/-- Rounding half to even of a rational to an integer (the rounding mode of
Python's builtin `round`). -/
def roundHalfEven (q : ℚ) : ℤ :=
  let f := ⌊q⌋
  let r := q - f
  if r < 1/2 then f
  else if 1/2 < r then f + 1
  else if Even f then f else f + 1

/-- Model of Python's `round(x, 1)`: round half to even at one decimal. -/
def pyRound1 (q : ℚ) : ℚ := (roundHalfEven (q * 10) : ℚ) / 10

/-- Model of Python's stable ascending sort by an integer key
(`sorted(l, key=k)`). -/
def pySortAscBy (k : α → ℕ) (l : List α) : List α :=
  l.mergeSort (fun a b => decide (k a ≤ k b))

/-- Model of Python's stable descending sort by an integer key
(`l.sort(key=k, reverse=True)`). -/
def pySortDescBy (k : α → ℕ) (l : List α) : List α :=
  l.mergeSort (fun a b => decide (k b ≤ k a))

/-! ## Relevance Ranker (`ComplianceAnalyzer._find_relevant_chunks`) -/

/-- One document chunk as produced by `DocumentProcessor.chunk_text`. -/
structure DocumentChunk where
  index : ℕ
  text : String
  char_start : ℕ
  char_end : ℕ
deriving DecidableEq, Repr

/-- Case-insensitive whitespace token set of a string: Python
`set(s.lower().split())`. -/
def token_set (s : String) : Finset String :=
  ((s.toLower.split Char.isWhitespace).filter (· ≠ "")).toFinset

/-- Word-overlap score of a control text against one chunk: the size of the
intersection of the two token sets (`len(control_words & chunk_words)`). -/
def overlap_score (control_text : String) (chunk : DocumentChunk) : ℕ :=
  (token_set control_text ∩ token_set chunk.text).card

/-- Scored chunk list: every chunk with a strictly positive overlap score,
paired with its score, in original chunk order. -/
def scored_chunks (control_text : String) (chunks : List DocumentChunk) :
    List (ℕ × String) :=
  chunks.filterMap (fun ch =>
    let o := overlap_score control_text ch
    if 0 < o then some (o, ch.text) else none)

/-- Embedding of `ComplianceAnalyzer._find_relevant_chunks`: score every
chunk, drop zero scores, sort descending by score (stable), return the texts
of the first `top_k` (default 5). -/
def find_relevant_chunks (control_text : String) (chunks : List DocumentChunk)
    (top_k : ℕ := 5) : List String :=
  ((pySortDescBy Prod.fst (scored_chunks control_text chunks)).take top_k).map
    Prod.snd

/-! ## Three-Stage Evaluator (`MultiLayerEvaluator`, backend/evaluator.py) -/

/-- A recommendation entry inside an LLM payload: keys `priority`,
`recommendation`, `expected_impact`; any of them may be absent. -/
structure Rec where
  priority : Option String := none
  recommendation : Option String := none
  expected_impact : Option String := none
deriving DecidableEq, Repr

/-- Hierarchical metadata of a control (`control["meta"]`); only the keys the
embedded operations read are modelled. -/
structure ControlMeta where
  control_id : Option String := none
deriving DecidableEq, Repr

/-- A control as stored in the vector store: a dict with keys `id`, `text`,
`meta`, each possibly absent. -/
structure Control where
  id : Option String := none
  text : Option String := none
  meta : ControlMeta := {}
deriving DecidableEq, Repr

/-- Parsed Layer-1 payload (`layer1_relevance_check` result): the keys
`evaluate_control` reads, each defaulting when absent. -/
structure Layer1Result where
  is_relevant : Option Bool := none
  relevance_score : Option ℚ := none
deriving DecidableEq, Repr

/-- Layer-2 analysis payload: the keys later stages read. In the parsed case
any key may be absent; the exception fallback of `layer2_detailed_analysis`
fills `addresses_control`, `coverage_level`, `preliminary_score`, `error`. -/
structure Layer2Result where
  addresses_control : Option Bool := none
  coverage_level : Option String := none
  preliminary_score : Option ℚ := none
  error : Option String := none
deriving DecidableEq, Repr

/-- Layer-3 payload as returned by `layer3_final_scoring`: the keys
`evaluate_control` reads, each possibly absent. -/
structure Layer3Result where
  final_score : Option ℚ := none
  compliance_status : Option String := none
  confidence : Option ℚ := none
  score_justification : Option String := none
  key_findings : Option (List String) := none
  recommendations : Option (List Rec) := none
  evidence_summary : Option String := none
  risk_level : Option String := none
  error : Option String := none
deriving DecidableEq, Repr

/-- Embedding of `MultiLayerEvaluator._score_to_status`: the fixed banding of
a numeric score into the five compliance statuses. -/
def score_to_status (score : ℚ) : String :=
  if 100 ≤ score then "fully_compliant"
  else if 75 ≤ score then "mostly_compliant"
  else if 50 ≤ score then "partially_compliant"
  else if 25 ≤ score then "minimally_compliant"
  else "non_compliant"

/-- Embedding of `layer2_detailed_analysis`: either the parsed LLM payload, or
on an exception escaping the retry wrapper the fixed fallback payload with
`preliminary_score = 0`. -/
def layer2_detailed_analysis (outcome : Except String Layer2Result) :
    Layer2Result :=
  match outcome with
  | .ok r => r
  | .error e =>
    { addresses_control := some false
      coverage_level := some "none"
      preliminary_score := some 0
      error := some e }

/-- Embedding of `layer3_final_scoring`: either the parsed LLM payload, or on
an exception the degraded-scoring fallback built from the Layer-2 result. -/
def layer3_final_scoring (layer2_analysis : Layer2Result)
    (outcome : Except String Layer3Result) : Layer3Result :=
  match outcome with
  | .ok r => r
  | .error e =>
    { final_score := some (layer2_analysis.preliminary_score.getD 0)
      compliance_status :=
        some (score_to_status (layer2_analysis.preliminary_score.getD 0))
      confidence := some 0.5
      score_justification :=
        some "Score based on preliminary analysis (Layer 3 error)"
      error := some e }

/-- The combined per-control evaluation record (`evaluate_control` result, or
a mock / short-circuit result). Keys that some producing paths omit are
`Option`; `skipped_deeper_analysis` and `mock` model the marker keys that are
present only on their respective paths. -/
structure EvalResult where
  control_id : String
  control_text : String
  control_meta : ControlMeta
  final_score : ℚ
  compliance_status : String
  confidence : ℚ
  score_justification : String
  key_findings : Option (List String) := none
  recommendations : List Rec := []
  evidence_summary : Option String := none
  risk_level : Option String := none
  skipped_deeper_analysis : Bool := false
  mock : Bool := false
deriving DecidableEq, Repr

/-- The control id resolution in `evaluate_control`:
`control.get("meta", \x7b\x7d).get("control_id", control.get("id", "unknown"))`. -/
def control_id_of (control : Control) : String :=
  control.meta.control_id.getD (control.id.getD "unknown")

/-- The Stage-1 short-circuit condition of `evaluate_control`:
`not is_relevant and relevance_score < 0.2` with the `.get` defaults. -/
def layer1_short_circuit (layer1 : Layer1Result) : Prop :=
  ¬ layer1.is_relevant.getD false ∧ layer1.relevance_score.getD 0 < 0.2

instance (layer1 : Layer1Result) : Decidable (layer1_short_circuit layer1) := by
  unfold layer1_short_circuit; infer_instance

/-- Embedding of `MultiLayerEvaluator.evaluate_control`. The Layer-1 result
and the Layer-2/Layer-3 call outcomes are inputs; the two `Bool` components
of the result record whether Stage 2 and Stage 3 were invoked. -/
def evaluate_control (control : Control) (layer1 : Layer1Result)
    (layer2_outcome : Except String Layer2Result)
    (layer3_outcome : Except String Layer3Result) :
    EvalResult × Bool × Bool :=
  let control_id := control_id_of control
  let control_text := control.text.getD ""
  if layer1_short_circuit layer1 then
    ({ control_id := control_id
       control_text := control_text
       control_meta := control.meta
       final_score := 0
       compliance_status := "non_compliant"
       confidence := 0.8
       score_justification :=
         "Document does not appear to address this control requirement."
       recommendations :=
         [{ priority := some "critical"
            recommendation :=
              some ("Add policies and procedures to address control " ++
                control_id)
            expected_impact :=
              some "Establishes baseline compliance for this control" }]
       risk_level := some "high"
       skipped_deeper_analysis := true }, false, false)
  else
    let layer2_result := layer2_detailed_analysis layer2_outcome
    let layer3_result := layer3_final_scoring layer2_result layer3_outcome
    ({ control_id := control_id
       control_text := control_text
       control_meta := control.meta
       final_score := layer3_result.final_score.getD 0
       compliance_status := layer3_result.compliance_status.getD "non_compliant"
       confidence := layer3_result.confidence.getD 0.5
       score_justification := layer3_result.score_justification.getD ""
       key_findings := some (layer3_result.key_findings.getD [])
       recommendations := layer3_result.recommendations.getD []
       evidence_summary := some (layer3_result.evidence_summary.getD "")
       risk_level := some (layer3_result.risk_level.getD "medium") }, true, true)

/-! ## Framework Aggregator and loop (`ComplianceAnalyzer`, backend/analyzer.py) -/

/-- Embedding of `ComplianceAnalyzer._mock_evaluation`: the fixed placeholder
used when no LLM evaluator is configured. -/
def mock_evaluation (control : Control) : EvalResult :=
  { control_id := control.meta.control_id.getD "unknown"
    control_text := control.text.getD ""
    control_meta := control.meta
    final_score := 0
    compliance_status := "not_evaluated"
    confidence := 0
    score_justification :=
      "LLM evaluation not available. Set GROQ_API_KEY to enable."
    recommendations := []
    mock := true }

/-- One step of building a Python counting dict
(`d[k] = d.get(k, 0) + 1`), keeping insertion order. -/
def bump : List (String × ℕ) → String → List (String × ℕ)
  | [], key => [(key, 1)]
  | (k0, n) :: t, key =>
    if k0 = key then (k0, n + 1) :: t else (k0, n) :: bump t key

/-- A counting dict built over a list of keys, in encounter order. -/
def hist (keys : List String) : List (String × ℕ) := keys.foldl bump []

/-- Dict read with default 0 (`d.get(k, 0)`). -/
def hist_get (h : List (String × ℕ)) (key : String) : ℕ :=
  ((h.find? (fun p => p.1 = key)).map Prod.snd).getD 0

/-- Embedding of `ComplianceAnalyzer._score_to_percentage_label`. -/
def score_to_percentage_label (score : ℚ) : String :=
  if 90 ≤ score then "Excellent"
  else if 75 ≤ score then "Good"
  else if 50 ≤ score then "Fair"
  else if 25 ≤ score then "Poor"
  else "Critical"

/-- The statistics dict of `_calculate_framework_stats` in the non-empty
case. -/
structure FrameworkStats where
  total_controls : ℕ
  average_score : ℚ
  overall_compliance : String
  status_breakdown : List (String × ℕ)
  risk_breakdown : List (String × ℕ)
  fully_compliant_count : ℕ
  non_compliant_count : ℕ
  needs_attention : ℕ
deriving DecidableEq, Repr

/-- Result of `_calculate_framework_stats`: either the early-return error dict
for an empty control list, or the statistics dict. -/
inductive StatsResult where
  | error (msg : String)
  | stats (s : FrameworkStats)
deriving DecidableEq, Repr

/-- Embedding of `ComplianceAnalyzer._calculate_framework_stats`. -/
def calculate_framework_stats (evaluated_controls : List EvalResult) :
    StatsResult :=
  let total := evaluated_controls.length
  if total = 0 then .error "No controls evaluated"
  else
    let scores := evaluated_controls.map (·.final_score)
    let statuses := evaluated_controls.map (·.compliance_status)
    let status_counts := hist statuses
    let avg_score := scores.sum / total
    let risk_counts :=
      hist (evaluated_controls.map (fun c => c.risk_level.getD "unknown"))
    .stats
      { total_controls := total
        average_score := pyRound1 avg_score
        overall_compliance := score_to_percentage_label avg_score
        status_breakdown := status_counts
        risk_breakdown := risk_counts
        fully_compliant_count := hist_get status_counts "fully_compliant"
        non_compliant_count := hist_get status_counts "non_compliant"
        needs_attention := scores.countP (fun s => decide (s < 50)) }

/-- Python truthiness of `max_controls : Optional[int]`
(`if max_controls:`). -/
def py_truthy : Option ℤ → Bool
  | none => false
  | some n => decide (n ≠ 0)

/-- Python list slice `l[:n]` for an integer bound `n` (negative bounds count
from the end). -/
def py_slice_to (l : List α) (n : ℤ) : List α :=
  if 0 ≤ n then l.take n.toNat else l.take (l.length - (-n).toNat)

/-- The control-list truncation at the top of `_analyze_framework`:
`if max_controls: all_controls = all_controls[:max_controls]`. -/
def truncate_controls (all_controls : List Control) (max_controls : Option ℤ) :
    List Control :=
  match max_controls with
  | none => all_controls
  | some n => if py_truthy (some n) then py_slice_to all_controls n
              else all_controls

/-- Observable events of one `_analyze_framework` run: a progress-callback
invocation with its arguments, and the completion of one control's
evaluation. -/
inductive FwEvent where
  | progressCall (framework : String) (current : ℕ) (total : ℕ)
      (control_id : Option String)
  | controlEvaluated (control_id : Option String)
deriving DecidableEq, Repr

/-- An abstract evaluator: `None` models the missing-API-key configuration
(mock mode); `some f` models a configured `MultiLayerEvaluator`, applied to a
control and its relevant chunks. -/
def Evaluator := Option (Control → List String → EvalResult)

/-- Evaluation of one control inside the `_analyze_framework` loop: the real
evaluator on the relevant chunks when configured, the mock otherwise. -/
def eval_one (evaluator : Evaluator) (document_chunks : List DocumentChunk)
    (control : Control) : EvalResult :=
  match evaluator with
  | some f =>
    f control (find_relevant_chunks (control.text.getD "") document_chunks)
  | none => mock_evaluation control

/-- The body of the `for i, control in enumerate(all_controls)` loop of
`_analyze_framework`, producing the evaluated controls and the event trace;
`i` is the running loop index. -/
def framework_loop (evaluator : Evaluator)
    (document_chunks : List DocumentChunk) (framework : String)
    (total_controls : ℕ) : List Control → ℕ → List EvalResult × List FwEvent
  | [], _ => ([], [])
  | control :: rest, i =>
    let ev := eval_one evaluator document_chunks control
    let (evs, trace) :=
      framework_loop evaluator document_chunks framework total_controls rest
        (i + 1)
    (ev :: evs,
      .progressCall framework (i + 1) total_controls control.meta.control_id ::
        .controlEvaluated control.meta.control_id :: trace)

/-- The per-framework result dict of `_analyze_framework` (the `structure`
key, not referenced by any claim, is omitted). -/
structure FrameworkResult where
  framework : String
  total_controls : ℕ
  controls : List EvalResult
  statistics : StatsResult
deriving DecidableEq, Repr

/-- Embedding of `ComplianceAnalyzer._analyze_framework`, also returning the
trace of observable loop events. -/
def analyze_framework (evaluator : Evaluator)
    (document_chunks : List DocumentChunk) (framework : String)
    (all_controls : List Control) (max_controls : Option ℤ) :
    FrameworkResult × List FwEvent :=
  let controls := truncate_controls all_controls max_controls
  let total_controls := controls.length
  let (evaluated, trace) :=
    framework_loop evaluator document_chunks framework total_controls controls 0
  ({ framework := framework
     total_controls := total_controls
     controls := evaluated
     statistics := calculate_framework_stats evaluated }, trace)

/-! ## Report Summarizer (`ComplianceAnalyzer._generate_summary`) -/

/-- A recommendation collected into the summary, tagged in place with the
control id and framework it came from. -/
structure TaggedRec where
  priority : Option String
  recommendation : Option String
  expected_impact : Option String
  control_id : String
  framework : String
deriving DecidableEq, Repr

/-- A critical-gap entry of the summary. -/
structure Gap where
  control_id : String
  framework : String
  score : ℚ
  risk_level : String
deriving DecidableEq, Repr

/-- The priority sort key of `_generate_summary`:
`{"critical": 0, "high": 1, "medium": 2, "low": 3}.get(priority, 4)`. -/
def priority_rank : Option String → ℕ
  | some "critical" => 0
  | some "high" => 1
  | some "medium" => 2
  | some "low" => 3
  | _ => 4

/-- Every per-control final score across all frameworks, in encounter
order. -/
def collect_scores (framework_results : List (String × FrameworkResult)) :
    List ℚ :=
  framework_results.flatMap (fun p => p.2.controls.map (·.final_score))

/-- Every critical- or high-priority recommendation across all frameworks,
tagged, in encounter order. -/
def collect_recommendations
    (framework_results : List (String × FrameworkResult)) : List TaggedRec :=
  framework_results.flatMap (fun p => p.2.controls.flatMap (fun c =>
    (c.recommendations.filter (fun r =>
        r.priority == some "critical" || r.priority == some "high")).map
      (fun r =>
        { priority := r.priority
          recommendation := r.recommendation
          expected_impact := r.expected_impact
          control_id := c.control_id
          framework := p.1 })))

/-- Every control scoring strictly below 25 across all frameworks, as a gap
entry, in encounter order. -/
def collect_gaps (framework_results : List (String × FrameworkResult)) :
    List Gap :=
  framework_results.flatMap (fun p =>
    (p.2.controls.filter (fun c => decide (c.final_score < 25))).map (fun c =>
      { control_id := c.control_id
        framework := p.1
        score := c.final_score
        risk_level := c.risk_level.getD "unknown" }))

/-- The `score_distribution` histogram of the summary. -/
structure ScoreDistribution where
  excellent : ℕ
  good : ℕ
  fair : ℕ
  poor : ℕ
  critical : ℕ
deriving DecidableEq, Repr

/-- The cross-framework summary dict. -/
structure Summary where
  overall_score : ℚ
  overall_status : String
  total_controls_evaluated : ℕ
  frameworks_analyzed : List String
  critical_gaps : List Gap
  top_recommendations : List TaggedRec
  score_distribution : ScoreDistribution
deriving DecidableEq, Repr

/-- Embedding of `ComplianceAnalyzer._generate_summary`. -/
def generate_summary (framework_results : List (String × FrameworkResult)) :
    Summary :=
  let all_scores := collect_scores framework_results
  let all_recommendations := collect_recommendations framework_results
  let critical_gaps := collect_gaps framework_results
  let avg_score :=
    if all_scores.length = 0 then 0 else all_scores.sum / all_scores.length
  { overall_score := pyRound1 avg_score
    overall_status := score_to_percentage_label avg_score
    total_controls_evaluated := all_scores.length
    frameworks_analyzed := framework_results.map Prod.fst
    critical_gaps := critical_gaps.take 10
    top_recommendations :=
      (pySortAscBy (fun r => priority_rank r.priority)
        all_recommendations).take 15
    score_distribution :=
      { excellent := all_scores.countP (fun s => decide (90 ≤ s))
        good := all_scores.countP (fun s => decide (75 ≤ s ∧ s < 90))
        fair := all_scores.countP (fun s => decide (50 ≤ s ∧ s < 75))
        poor := all_scores.countP (fun s => decide (25 ≤ s ∧ s < 50))
        critical := all_scores.countP (fun s => decide (s < 25)) } }

/-- The full results object of `analyze_document` (the `document_info`
sub-dict, not referenced by any claim, is omitted). -/
structure Results where
  frameworks : List (String × FrameworkResult)
  summary : Summary
deriving DecidableEq, Repr

/-- Embedding of `ComplianceAnalyzer.analyze_document`: run every requested
framework in order, then summarize; also returns the concatenated event
trace. -/
def analyze_document (evaluator : Evaluator)
    (document_chunks : List DocumentChunk) (frameworks : List String)
    (controls_of : String → List Control) (max_controls : Option ℤ) :
    Results × List FwEvent :=
  let per := frameworks.map (fun fw =>
    (fw, analyze_framework evaluator document_chunks fw (controls_of fw)
      max_controls))
  let framework_results := per.map (fun p => (p.1, p.2.1))
  ({ frameworks := framework_results
     summary := generate_summary framework_results },
   per.flatMap (fun p => p.2.2))

/-! ## Job Lifecycle Manager (backend/main.py) -/

/-- The `progress` snapshot written by the `progress_callback` closure of
`run_evaluation` in main.py. -/
structure Progress where
  framework : String
  current_control : ℕ
  total_controls : ℕ
  control_id : Option String
  percentage : ℚ
deriving DecidableEq, Repr

/-- What one invocation of the `progress_callback` closure writes into
`job["progress"]`. -/
def progress_of_call (framework : String) (current total : ℕ)
    (control_id : Option String) : Progress :=
  { framework := framework
    current_control := current
    total_controls := total
    control_id := control_id
    percentage := pyRound1 ((current : ℚ) / (total : ℚ) * 100) }

/-- The progress snapshots an event trace makes the `progress_callback`
closure write, in order. -/
def updates_of_trace (trace : List FwEvent) : List Progress :=
  trace.filterMap (fun e =>
    match e with
    | .progressCall fw current total control_id =>
      some (progress_of_call fw current total control_id)
    | _ => none)

/-- One job record of the in-memory `job_storage` table. -/
structure Job where
  job_id : String
  status : String
  filename : String
  file_path : String
  created_at : String
  frameworks : Option (List String) := none
  started_at : Option String := none
  completed_at : Option String := none
  failed_at : Option String := none
  error : Option String := none
  results : Option Results := none
  progress : Option Progress := none
deriving DecidableEq, Repr

/-- The job record created by the upload route. -/
def uploaded_job (job_id filename file_path now : String) : Job :=
  { job_id := job_id
    status := "uploaded"
    filename := filename
    file_path := file_path
    created_at := now }

/-- What the evaluate route answers: an HTTP error, the completed-job no-op
response, or the started response. -/
inductive StartResult where
  | httpError (code : ℕ) (detail : String)
  | alreadyCompleted (job_id : String) (message : String)
  | started (job_id : String) (frameworks : List String) (message : String)
deriving DecidableEq, Repr

/-- Embedding of the `start_evaluation` route body for an existing job: the
response, the job record afterwards, and whether a background evaluation task
was scheduled. -/
def start_evaluation (job : Job) (req_frameworks : List String)
    (available : List String) (now : String) : StartResult × Job × Bool :=
  if job.status = "processing" then
    (.httpError 400 "Evaluation already in progress", job, false)
  else if job.status = "completed" then
    (.alreadyCompleted job.job_id
      "Evaluation already completed. Use /api/results/{job_id} to get results.",
     job, false)
  else
    match req_frameworks.find? (fun fw => ¬ available.contains fw) with
    | some fw =>
      (.httpError 400 ("Framework " ++ fw ++
        " not available. Use /api/frameworks to list available frameworks."),
       job, false)
    | none =>
      (.started job.job_id req_frameworks
        "Evaluation started. Poll /api/jobs/{job_id} for progress.",
       { job with
          status := "processing"
          frameworks := some req_frameworks
          started_at := some now },
       true)

/-- Embedding of the `run_evaluation` background task: the progress updates
observed before the outcome are folded into the job, then either the success
epilogue or the exception handler runs. -/
def run_evaluation (job : Job) (updates : List Progress)
    (outcome : Except String Results) (now : String) : Job :=
  let j1 := updates.foldl (fun j p => { j with progress := some p }) job
  match outcome with
  | .ok results =>
    { j1 with
        status := "completed"
        completed_at := some now
        results := some results }
  | .error e =>
    { j1 with status := "failed", error := some e, failed_at := some now }

/-! ## Further definitions used by the claim statements -/

/-- Projection of a statistics result onto the statistics dict. -/
def stats_of : StatsResult → Option FrameworkStats
  | .error _ => none
  | .stats s => s

/-- A minimal evaluation record carrying a given final score (used to state
the concrete-example parts of claims). -/
def mkEval (score : ℚ) : EvalResult :=
  { control_id := "c"
    control_text := ""
    control_meta := {}
    final_score := score
    compliance_status := "non_compliant"
    confidence := 0
    score_justification := "" }

/-- The ordering property claimed of the progress callback: every
progress-callback event is preceded in the trace by the completion event of
the control it reports. -/
def callback_after_completion (trace : List FwEvent) : Bool :=
  (List.range trace.length).all (fun i =>
    match trace.get? i with
    | some (FwEvent.progressCall _ _ _ control_id) =>
      (trace.take i).any (fun e =>
        e == FwEvent.controlEvaluated control_id)
    | _ => true)

/-- A sample control used in concrete instances. -/
def sample_control : Control :=
  { id := some "c1"
    text := some "access control policy"
    meta := { control_id := some "1-1-1" } }

/-- A sample uploaded job used in concrete instances. -/
def sample_job : Job := uploaded_job "j1" "doc.pdf" "/uploads/doc.pdf" "t0"

/-- A sample framework result with one low-scoring control carrying one
critical recommendation, used in concrete instances. -/
def sample_framework_result : FrameworkResult :=
  { framework := "nca_en"
    total_controls := 1
    controls := [{ mkEval 10 with
      recommendations := [{ priority := some "critical" }] }]
    statistics := .error "e" }

/-! ## General lemmas -/

/-- Stability of `List.mergeSort`, phrased through `filter`: elements picked
out by a predicate on which the comparison is reflexive keep their relative
order (and multiplicity) through the sort. -/
theorem filter_mergeSort_eq (le : α → α → Bool)
    (htrans : ∀ a b c, le a b → le b c → le a c)
    (htotal : ∀ a b, le a b || le b a)
    (p : α → Bool) (hp : ∀ a b, p a → p b → le a b) (l : List α) :
    (l.mergeSort le).filter p = l.filter p := by
  have hpair : (l.filter p).Pairwise (fun a b => le a b) := by
    refine List.pairwise_of_forall_mem_list ?_
    intro a ha b hb
    exact hp a b (List.of_mem_filter ha) (List.of_mem_filter hb)
  have hsub : List.Sublist (l.filter p) (l.mergeSort le) :=
    List.sublist_mergeSort htrans htotal hpair (List.filter_sublist l)
  have hsub2 : List.Sublist (l.filter p) ((l.mergeSort le).filter p) := by
    have h2 := hsub.filter p
    rwa [List.filter_filter, (by simp : (fun a => p a && p a) = p)] at h2
  have hperm : List.Perm ((l.mergeSort le).filter p) (l.filter p) :=
    (List.mergeSort_perm l le).filter p
  exact (hsub2.eq_of_length hperm.length_eq.symm).symm

/-- The ascending key sort is sorted by the key. -/
theorem pairwise_pySortAscBy (k : α → ℕ) (l : List α) :
    (pySortAscBy k l).Pairwise (fun a b => k a ≤ k b) := by
  have h : (pySortAscBy k l).Pairwise
      (fun a b => (fun a b => decide (k a ≤ k b)) a b = true) := by
    apply List.sorted_mergeSort
    · intro a b c hab hbc; simp only [decide_eq_true_eq] at *; omega
    · intro a b; simp only [Bool.or_eq_true, decide_eq_true_eq]; omega
  exact h.imp (by intro a b h; simpa using h)

/-- The descending key sort is sorted by the reversed key order. -/
theorem pairwise_pySortDescBy (k : α → ℕ) (l : List α) :
    (pySortDescBy k l).Pairwise (fun a b => k b ≤ k a) := by
  have h : (pySortDescBy k l).Pairwise
      (fun a b => (fun a b => decide (k b ≤ k a)) a b = true) := by
    apply List.sorted_mergeSort
    · intro a b c hab hbc; simp only [decide_eq_true_eq] at *; omega
    · intro a b; simp only [Bool.or_eq_true, decide_eq_true_eq]; omega
  exact h.imp (by intro a b h; simpa using h)

/-- The ascending key sort is a permutation of its input. -/
theorem perm_pySortAscBy (k : α → ℕ) (l : List α) :
    List.Perm (pySortAscBy k l) l :=
  List.mergeSort_perm l _

/-- The descending key sort is a permutation of its input. -/
theorem perm_pySortDescBy (k : α → ℕ) (l : List α) :
    List.Perm (pySortDescBy k l) l :=
  List.mergeSort_perm l _

/-- Stability of the ascending key sort: the elements of any one key value
appear in the output exactly as they appear in the input. -/
theorem filter_pySortAscBy (k : α → ℕ) (l : List α) (s : ℕ) :
    (pySortAscBy k l).filter (fun a => k a == s) =
      l.filter (fun a => k a == s) := by
  refine filter_mergeSort_eq _ ?_ ?_ _ ?_ l
  · intro a b c hab hbc; simp only [decide_eq_true_eq] at *; omega
  · intro a b; simp only [Bool.or_eq_true, decide_eq_true_eq]; omega
  · intro a b ha hb
    simp only [beq_iff_eq] at ha hb
    simp [ha, hb]

/-- Stability of the descending key sort: the elements of any one key value
appear in the output exactly as they appear in the input. -/
theorem filter_pySortDescBy (k : α → ℕ) (l : List α) (s : ℕ) :
    (pySortDescBy k l).filter (fun a => k a == s) =
      l.filter (fun a => k a == s) := by
  refine filter_mergeSort_eq _ ?_ ?_ _ ?_ l
  · intro a b c hab hbc; simp only [decide_eq_true_eq] at *; omega
  · intro a b; simp only [Bool.or_eq_true, decide_eq_true_eq]; omega
  · intro a b ha hb
    simp only [beq_iff_eq] at ha hb
    simp [ha, hb]


/-! ## Helper lemmas -/

/-- The evaluations produced by the `_analyze_framework` loop are the
per-control evaluations of the processed list, in order. -/
theorem framework_loop_evals (evaluator : Evaluator)
    (document_chunks : List DocumentChunk) (framework : String) (tot : ℕ) :
    ∀ (cs : List Control) (i : ℕ),
      (framework_loop evaluator document_chunks framework tot cs i).1 =
        cs.map (eval_one evaluator document_chunks)
  | [], _ => rfl
  | _ :: rest, i => by
    simp [framework_loop,
      framework_loop_evals evaluator document_chunks framework tot rest (i + 1)]

/-- The event trace of the `_analyze_framework` loop: for each control, in
list order, one progress-callback invocation (with the one-based position)
immediately followed by that control's evaluation. -/
theorem framework_loop_trace (evaluator : Evaluator)
    (document_chunks : List DocumentChunk) (framework : String) (tot : ℕ) :
    ∀ (cs : List Control) (i : ℕ),
      (framework_loop evaluator document_chunks framework tot cs i).2 =
        (cs.enumFrom i).flatMap (fun p =>
          [FwEvent.progressCall framework (p.1 + 1) tot p.2.meta.control_id,
           FwEvent.controlEvaluated p.2.meta.control_id])
  | [], _ => rfl
  | _ :: rest, i => by
    simp [framework_loop, List.enumFrom,
      framework_loop_trace evaluator document_chunks framework tot rest (i + 1)]

/-- Reading a counting dict after one `bump`. -/
theorem hist_get_bump : ∀ (h : List (String × ℕ)) (k key : String),
    hist_get (bump h k) key =
      hist_get h key + (if k = key then 1 else 0)
  | [], k, key => by
    by_cases hk : k = key <;> simp [bump, hist_get, List.find?, hk]
  | (k0, n) :: t, k, key => by
    by_cases h0k : k0 = k
    · subst h0k
      by_cases hk : k0 = key
      · subst hk; simp [bump, hist_get, List.find?]
      · simp [bump, hist_get, List.find?, hk]
    · by_cases h0key : k0 = key
      · subst h0key
        have hk : ¬ k = k0 := fun h2 => h0k h2.symm
        simp [bump, hist_get, List.find?, h0k, hk]
      · have ih := hist_get_bump t k key
        simp [bump, hist_get, List.find?, h0k, h0key] at ih ⊢
        exact ih

/-- Reading the counting dict over a key list counts occurrences. -/
theorem hist_get_hist (keys : List String) (key : String) :
    hist_get (hist keys) key = keys.count key := by
  suffices h : ∀ h0 : List (String × ℕ),
      hist_get (keys.foldl bump h0) key = hist_get h0 key + keys.count key by
    simpa [hist, hist_get] using h []
  induction keys with
  | nil => intro h0; simp
  | cons a t ih =>
    intro h0
    simp only [List.foldl_cons, ih (bump h0 a), hist_get_bump,
      List.count_cons]
    by_cases ha : a = key
    · simp [ha, List.count_cons]; omega
    · have hb : ¬ (a == key) = true := by simpa using ha
      simp [ha, hb]

/-- The fold of progress writes leaves, as the job's `progress`, the last
update when there is one and the prior value otherwise. -/
theorem foldl_progress (updates : List Progress) :
    ∀ job : Job,
    (updates.foldl (fun j p => { j with progress := some p }) job).progress =
      match updates.getLast? with
      | some p => some p
      | none => job.progress := by
  induction updates with
  | nil => intro job; rfl
  | cons p t ih =>
    intro job
    cases t with
    | nil => rw [List.foldl_cons, ih]; rfl
    | cons q t2 =>
      rw [List.foldl_cons, ih, List.getLast?_cons_cons]
      cases h : (q :: t2).getLast? with
      | some r => simp
      | none =>
        rw [List.getLast?_eq_none_iff] at h
        exact absurd h (by simp)

/-- The fold of progress writes changes no field other than `progress`. -/
theorem foldl_progress_others (updates : List Progress) :
    ∀ job : Job,
    (updates.foldl (fun j p => { j with progress := some p }) job) =
      { job with
          progress :=
            (updates.foldl (fun j p => { j with progress := some p })
              job).progress } := by
  induction updates with
  | nil => intro job; rfl
  | cons p t ih =>
    intro job
    rw [List.foldl_cons, ih]

/-- The progress updates induced by the trace of one framework's loop. -/
theorem updates_of_trace_flatMap (framework : String) (tot : ℕ)
    (l : List (ℕ × Control)) :
    updates_of_trace (l.flatMap (fun p =>
        [FwEvent.progressCall framework (p.1 + 1) tot p.2.meta.control_id,
         FwEvent.controlEvaluated p.2.meta.control_id])) =
      l.map (fun p =>
        progress_of_call framework (p.1 + 1) tot p.2.meta.control_id) := by
  induction l with
  | nil => rfl
  | cons p t ih => simp [updates_of_trace, List.filterMap_cons] at ih ⊢; exact ih

/-! ## Claims -/

/-- C1: if the Stage 1 result has `isRelevant=false` and
`relevanceScore<0.2`, `evaluate_control` short-circuits with `finalScore=0`,
`complianceStatus=non_compliant`, `confidence=0.8`, `riskLevel=high`, exactly
one critical recommendation and the `skippedDeeperAnalysis=true` marker, and
Stages 2 and 3 are never invoked; otherwise Stages 2 and 3 are invoked. -/
theorem c1_relevance_gate (control : Control) (layer1 : Layer1Result)
    (layer2_outcome : Except String Layer2Result)
    (layer3_outcome : Except String Layer3Result) :
    (layer1_short_circuit layer1 →
      (evaluate_control control layer1 layer2_outcome
          layer3_outcome).1.final_score = 0 ∧
      (evaluate_control control layer1 layer2_outcome
          layer3_outcome).1.compliance_status = "non_compliant" ∧
      (evaluate_control control layer1 layer2_outcome
          layer3_outcome).1.confidence = 0.8 ∧
      (evaluate_control control layer1 layer2_outcome
          layer3_outcome).1.risk_level = some "high" ∧
      (evaluate_control control layer1 layer2_outcome
          layer3_outcome).1.recommendations.length = 1 ∧
      (∀ r ∈ (evaluate_control control layer1 layer2_outcome
          layer3_outcome).1.recommendations, r.priority = some "critical") ∧
      (evaluate_control control layer1 layer2_outcome
          layer3_outcome).1.skipped_deeper_analysis = true ∧
      (evaluate_control control layer1 layer2_outcome
          layer3_outcome).2 = (false, false)) ∧
    (¬ layer1_short_circuit layer1 →
      (evaluate_control control layer1 layer2_outcome
          layer3_outcome).2 = (true, true)) := by
  constructor
  · intro h
    simp [evaluate_control, if_pos h]
  · intro h
    simp only [evaluate_control, if_neg h]

/-- Witness for C1 at a concrete irrelevant Stage 1 output. -/
theorem c1_relevance_gate_witness :
    layer1_short_circuit
      { is_relevant := some false, relevance_score := some 0.1 } ∧
    (evaluate_control sample_control
        { is_relevant := some false, relevance_score := some 0.1 }
        (.ok {}) (.ok {})).1.final_score = 0 ∧
    (evaluate_control sample_control
        { is_relevant := some false, relevance_score := some 0.1 }
        (.ok {}) (.ok {})).2 = (false, false) :=
  have hc : layer1_short_circuit
      { is_relevant := some false, relevance_score := some 0.1 } := by
    exact ⟨by decide, by norm_num⟩
  ⟨hc,
   ((c1_relevance_gate sample_control _ (.ok {}) (.ok {})).1 hc).1,
   ((c1_relevance_gate sample_control _ (.ok {}) (.ok {})).1
     hc).2.2.2.2.2.2.2⟩

/-- C4: if the Stage 3 call fails, the evaluation still returns a result
whose `finalScore` is Stage 2's `preliminaryScore` (0 when absent), whose
`complianceStatus` is that score through the fixed banding, with
`confidence=0.5` and a degraded-scoring justification; the banding is
`100→fully_compliant; [75,100)→mostly_compliant; [50,75)→partially_compliant;
[25,50)→minimally_compliant; [0,25)→non_compliant`. -/
theorem c4_layer3_fallback :
    (∀ (control : Control) (layer1 : Layer1Result)
       (layer2_outcome : Except String Layer2Result) (e : String),
      ¬ layer1_short_circuit layer1 →
      (evaluate_control control layer1 layer2_outcome
          (.error e)).1.final_score =
        (layer2_detailed_analysis layer2_outcome).preliminary_score.getD 0 ∧
      (evaluate_control control layer1 layer2_outcome
          (.error e)).1.compliance_status =
        score_to_status
          ((layer2_detailed_analysis layer2_outcome).preliminary_score.getD
            0) ∧
      (evaluate_control control layer1 layer2_outcome
          (.error e)).1.confidence = 0.5 ∧
      (evaluate_control control layer1 layer2_outcome
          (.error e)).1.score_justification =
        "Score based on preliminary analysis (Layer 3 error)") ∧
    score_to_status 100 = "fully_compliant" ∧
    (∀ s : ℚ, 75 ≤ s → s < 100 → score_to_status s = "mostly_compliant") ∧
    (∀ s : ℚ, 50 ≤ s → s < 75 → score_to_status s = "partially_compliant") ∧
    (∀ s : ℚ, 25 ≤ s → s < 50 → score_to_status s = "minimally_compliant") ∧
    (∀ s : ℚ, 0 ≤ s → s < 25 → score_to_status s = "non_compliant") := by
  refine ⟨?_, ?_, ?_, ?_, ?_, ?_⟩
  · intro control layer1 layer2_outcome e h
    simp only [evaluate_control, if_neg h, layer3_final_scoring]
    refine ⟨by simp, by simp, by simp, by simp⟩
  · simp [score_to_status]
  · intro s h1 h2
    simp only [score_to_status]
    rw [if_neg (by linarith), if_pos h1]
  · intro s h1 h2
    simp only [score_to_status]
    rw [if_neg (by linarith), if_neg (by linarith), if_pos h1]
  · intro s h1 h2
    simp only [score_to_status]
    rw [if_neg (by linarith), if_neg (by linarith), if_neg (by linarith),
      if_pos h1]
  · intro s h1 h2
    simp only [score_to_status]
    rw [if_neg (by linarith), if_neg (by linarith), if_neg (by linarith),
      if_neg (by linarith)]

/-- Witness for C4: a relevant Stage 1 result, a Stage 2 preliminary score of
60, and a failing Stage 3 call. -/
theorem c4_layer3_fallback_witness :
    ¬ layer1_short_circuit
      { is_relevant := some true, relevance_score := some 0.9 } ∧
    (evaluate_control sample_control
        { is_relevant := some true, relevance_score := some 0.9 }
        (.ok { preliminary_score := some 60 })
        (.error "timeout")).1.final_score =
      (layer2_detailed_analysis
        (.ok { preliminary_score := some 60 })).preliminary_score.getD 0 ∧
    (evaluate_control sample_control
        { is_relevant := some true, relevance_score := some 0.9 }
        (.ok { preliminary_score := some 60 })
        (.error "timeout")).1.confidence = 0.5 :=
  have hnc : ¬ layer1_short_circuit
      { is_relevant := some true, relevance_score := some 0.9 } :=
    fun h => h.1 rfl
  ⟨hnc,
   (c4_layer3_fallback.1 sample_control _ (.ok { preliminary_score := some 60 })
     "timeout" hnc).1,
   (c4_layer3_fallback.1 sample_control _ (.ok { preliminary_score := some 60 })
     "timeout" hnc).2.2.1⟩

/-- C9: an evaluate request on a job in status `processing` is rejected with
the explicit already-processing signal, schedules nothing, and mutates
neither `progress` nor `frameworks` (the job is unchanged); a request on a
`completed` job is a no-op that reports completion without re-running. -/
theorem c9_start_evaluation (job : Job) (req_frameworks available : List String)
    (now : String) :
    (job.status = "processing" →
      (start_evaluation job req_frameworks available now).1 =
        .httpError 400 "Evaluation already in progress" ∧
      (start_evaluation job req_frameworks available now).2.1 = job ∧
      (start_evaluation job req_frameworks available now).2.1.progress =
        job.progress ∧
      (start_evaluation job req_frameworks available now).2.1.frameworks =
        job.frameworks ∧
      (start_evaluation job req_frameworks available now).2.2 = false) ∧
    (job.status = "completed" →
      (start_evaluation job req_frameworks available now).1 =
        .alreadyCompleted job.job_id
          "Evaluation already completed. Use /api/results/{job_id} to get results." ∧
      (start_evaluation job req_frameworks available now).2.1 = job ∧
      (start_evaluation job req_frameworks available now).2.2 = false) := by
  constructor
  · intro h
    simp [start_evaluation, h]
  · intro h
    have hne : job.status ≠ "processing" := by rw [h]; decide
    simp [start_evaluation, h, hne]

/-- Witness for C9: a processing job and a completed job. -/
theorem c9_start_evaluation_witness :
    (start_evaluation { sample_job with status := "processing" } ["nca_en"]
        ["nca_en"] "t1").1 =
      .httpError 400 "Evaluation already in progress" ∧
    (start_evaluation { sample_job with status := "completed" } ["nca_en"]
        ["nca_en"] "t1").2.2 = false :=
  ⟨((c9_start_evaluation { sample_job with status := "processing" } ["nca_en"]
      ["nca_en"] "t1").1 rfl).1,
   ((c9_start_evaluation { sample_job with status := "completed" } ["nca_en"]
      ["nca_en"] "t1").2 rfl).2.2⟩

/-- C2: an unhandled exception in the evaluation loop leaves the job in
status `failed` with the error message and a `failedAt` timestamp, keeps
`progress` at its last observed value, and never leaves it `processing`; a
successful run ends `completed`; `failed` is produced only by the exception
branch (neither upload nor the evaluate route produce it from a non-failed
job). -/
theorem c2_job_failure :
    (∀ (job : Job) (updates : List Progress) (e now : String),
      (run_evaluation job updates (.error e) now).status = "failed" ∧
      (run_evaluation job updates (.error e) now).error = some e ∧
      (run_evaluation job updates (.error e) now).failed_at = some now ∧
      (run_evaluation job updates (.error e) now).progress =
        (match updates.getLast? with
         | some p => some p
         | none => job.progress) ∧
      (run_evaluation job updates (.error e) now).status ≠ "processing") ∧
    (∀ (job : Job) (updates : List Progress) (results : Results)
       (now : String),
      (run_evaluation job updates (.ok results) now).status = "completed") ∧
    (∀ (job : Job) (updates : List Progress) (outcome : Except String Results)
       (now : String),
      (run_evaluation job updates outcome now).status = "failed" →
        ∃ e, outcome = .error e) ∧
    (∀ (job : Job) (req_frameworks available : List String) (now : String),
      (start_evaluation job req_frameworks available now).2.1.status =
        "failed" → job.status = "failed") ∧
    (∀ job_id filename file_path now : String,
      (uploaded_job job_id filename file_path now).status = "uploaded") := by
  refine ⟨?_, ?_, ?_, ?_, ?_⟩
  · intro job updates e now
    have hst : (run_evaluation job updates (.error e) now).status = "failed" :=
      rfl
    refine ⟨hst, rfl, rfl, ?_, by rw [hst]; decide⟩
    simp only [run_evaluation]
    exact foldl_progress updates job
  · intro job updates results now
    rfl
  · intro job updates outcome now h
    cases outcome with
    | ok r =>
      exact absurd (show ("completed" : String) = "failed" from h) (by decide)
    | error e => exact ⟨e, rfl⟩
  · intro job req_frameworks available now h
    unfold start_evaluation at h
    split at h
    · exact h
    · split at h
      · exact h
      · split at h
        · exact h
        · exact absurd (show ("processing" : String) = "failed" from h)
            (by decide)
  · intro job_id filename file_path now
    rfl

/-- Witness for C2: a failing run on a concrete job, and the upload status. -/
theorem c2_job_failure_witness :
    (run_evaluation sample_job [] (.error "boom") "t1").status = "failed" ∧
    sample_job.status = "uploaded" :=
  ⟨(c2_job_failure.1 sample_job [] "boom" "t1").1,
   c2_job_failure.2.2.2.2 "j1" "doc.pdf" "/uploads/doc.pdf" "t0"⟩

/-- Closed form of `analyze_framework`: the evaluated controls are the
per-control evaluations of the truncated list, and the trace interleaves one
progress call (one-based position) before each control's evaluation. -/
theorem analyze_framework_spec (evaluator : Evaluator)
    (chunks : List DocumentChunk) (framework : String)
    (all_controls : List Control) (max_controls : Option ℤ) :
    analyze_framework evaluator chunks framework all_controls max_controls =
      ({ framework := framework
         total_controls := (truncate_controls all_controls max_controls).length
         controls := (truncate_controls all_controls max_controls).map
           (eval_one evaluator chunks)
         statistics := calculate_framework_stats
           ((truncate_controls all_controls max_controls).map
             (eval_one evaluator chunks)) },
       ((truncate_controls all_controls max_controls).enum).flatMap (fun p =>
         [FwEvent.progressCall framework (p.1 + 1)
            (truncate_controls all_controls max_controls).length
            p.2.meta.control_id,
          FwEvent.controlEvaluated p.2.meta.control_id])) := by
  have h1 := framework_loop_evals evaluator chunks framework
    (truncate_controls all_controls max_controls).length
    (truncate_controls all_controls max_controls) 0
  have h2 := framework_loop_trace evaluator chunks framework
    (truncate_controls all_controls max_controls).length
    (truncate_controls all_controls max_controls) 0
  have hpair : framework_loop evaluator chunks framework
      (truncate_controls all_controls max_controls).length
      (truncate_controls all_controls max_controls) 0 =
      ((truncate_controls all_controls max_controls).map
        (eval_one evaluator chunks),
       ((truncate_controls all_controls max_controls).enum).flatMap (fun p =>
         [FwEvent.progressCall framework (p.1 + 1)
            (truncate_controls all_controls max_controls).length
            p.2.meta.control_id,
          FwEvent.controlEvaluated p.2.meta.control_id])) :=
    Prod.ext h1 h2
  simp only [analyze_framework, hpair]

/-- C10 counterexample: with `maxControls` set to 0 and one control, the code
performs no truncation and still evaluates 1 control, exceeding
`maxControls`. -/
theorem c10_counterexample :
    ¬ (analyze_framework none [] "nca_en" [sample_control]
        (some 0)).1.controls.length ≤ 0 := by
  decide

/-- C10 (amended): when `maxControls` is set to a positive value, the
controls evaluated for a framework are exactly the evaluations of the first
`maxControls` controls, so their number never exceeds `maxControls`. -/
theorem c10_truncation (evaluator : Evaluator) (chunks : List DocumentChunk)
    (framework : String) (all_controls : List Control) (n : ℤ)
    (h : 0 < n) :
    (analyze_framework evaluator chunks framework all_controls
        (some n)).1.controls =
      (all_controls.take n.toNat).map (eval_one evaluator chunks) ∧
    (analyze_framework evaluator chunks framework all_controls
        (some n)).1.controls.length ≤ n.toNat ∧
    (analyze_framework evaluator chunks framework all_controls
        (some n)).1.total_controls = (all_controls.take n.toNat).length := by
  have hne : n ≠ 0 := by omega
  have h0 : (0 : ℤ) ≤ n := le_of_lt h
  have htr : truncate_controls all_controls (some n) =
      all_controls.take n.toNat := by
    simp [truncate_controls, py_truthy, hne, py_slice_to, h0]
  rw [analyze_framework_spec, htr]
  refine ⟨rfl, ?_, rfl⟩
  simp only [List.length_map, List.length_take]
  exact Nat.min_le_left _ _

/-- Witness for C10 (amended) at `maxControls = 1` over two controls. -/
theorem c10_truncation_witness :
    (0 : ℤ) < 1 ∧
    (analyze_framework none [] "nca_en" [sample_control, sample_control]
        (some 1)).1.controls =
      (([sample_control, sample_control].take (1 : ℤ).toNat).map
        (eval_one none [])) ∧
    (analyze_framework none [] "nca_en" [sample_control, sample_control]
        (some 1)).1.controls.length ≤ (1 : ℤ).toNat :=
  ⟨by decide,
   (c10_truncation none [] "nca_en" [sample_control, sample_control] 1
     (by decide)).1,
   (c10_truncation none [] "nca_en" [sample_control, sample_control] 1
     (by decide)).2.1⟩

/-- C3 counterexample: in a one-control run the progress-callback event
precedes the control's evaluation event, so the callback is not invoked
after the control completes. -/
theorem c3_counterexample :
    callback_after_completion
      (analyze_framework none [] "nca_en" [sample_control] none).2 = false := by
  decide

/-- C3 (amended): the progress callback is invoked immediately before each
control is evaluated (not after it completes), with one-based
`currentControl` rising monotonically from 1 to `totalControls` and starting
again at 1 for each framework, and the written snapshot carries
`percentage = round(currentControl/totalControls*100, 1)`. -/
theorem c3_progress_callback (evaluator : Evaluator)
    (chunks : List DocumentChunk) (framework : String)
    (all_controls : List Control) (max_controls : Option ℤ)
    (frameworks : List String) (controls_of : String → List Control) :
    (analyze_framework evaluator chunks framework all_controls
        max_controls).2 =
      ((truncate_controls all_controls max_controls).enum).flatMap (fun p =>
        [FwEvent.progressCall framework (p.1 + 1)
           (truncate_controls all_controls max_controls).length
           p.2.meta.control_id,
         FwEvent.controlEvaluated p.2.meta.control_id]) ∧
    updates_of_trace
        (analyze_framework evaluator chunks framework all_controls
          max_controls).2 =
      ((truncate_controls all_controls max_controls).enum).map (fun p =>
        progress_of_call framework (p.1 + 1)
          (truncate_controls all_controls max_controls).length
          p.2.meta.control_id) ∧
    (updates_of_trace
        (analyze_framework evaluator chunks framework all_controls
          max_controls).2).map (·.current_control) =
      (List.range
        (truncate_controls all_controls max_controls).length).map (· + 1) ∧
    (∀ (fw : String) (current total : ℕ) (control_id : Option String),
      (progress_of_call fw current total control_id).percentage =
        pyRound1 ((current : ℚ) / (total : ℚ) * 100)) ∧
    (analyze_document evaluator chunks frameworks controls_of
        max_controls).2 =
      frameworks.flatMap (fun fw =>
        (analyze_framework evaluator chunks fw (controls_of fw)
          max_controls).2) := by
  have htrace : (analyze_framework evaluator chunks framework all_controls
      max_controls).2 =
      ((truncate_controls all_controls max_controls).enum).flatMap (fun p =>
        [FwEvent.progressCall framework (p.1 + 1)
           (truncate_controls all_controls max_controls).length
           p.2.meta.control_id,
         FwEvent.controlEvaluated p.2.meta.control_id]) := by
    rw [analyze_framework_spec]
  have hupd : updates_of_trace
      (analyze_framework evaluator chunks framework all_controls
        max_controls).2 =
      ((truncate_controls all_controls max_controls).enum).map (fun p =>
        progress_of_call framework (p.1 + 1)
          (truncate_controls all_controls max_controls).length
          p.2.meta.control_id) := by
    rw [htrace]
    exact updates_of_trace_flatMap framework
      (truncate_controls all_controls max_controls).length
      ((truncate_controls all_controls max_controls).enum)
  refine ⟨htrace, hupd, ?_, fun _ _ _ _ => rfl, ?_⟩
  · rw [hupd, List.map_map]
    have henum : ((truncate_controls all_controls max_controls).enum).map
        Prod.fst =
        List.range (truncate_controls all_controls max_controls).length :=
      List.enum_map_fst _
    calc ((truncate_controls all_controls max_controls).enum).map
          ((fun p : Progress => p.current_control) ∘ (fun p =>
            progress_of_call framework (p.1 + 1)
              (truncate_controls all_controls max_controls).length
              p.2.meta.control_id)) =
        ((truncate_controls all_controls max_controls).enum).map
          ((· + 1) ∘ Prod.fst) := rfl
      _ = (((truncate_controls all_controls max_controls).enum).map
            Prod.fst).map (· + 1) := (List.map_map _ _ _).symm
      _ = (List.range
            (truncate_controls all_controls max_controls).length).map
            (· + 1) := by rw [henum]
  · simp only [analyze_document, List.flatMap_map]

/-- C5: with no evaluator configured, every control of every requested
framework receives the fixed mock placeholder (`finalScore=0`,
`confidence=0`, status `not_evaluated`, explanatory justification, `mock`
marker), and a run whose outcome is such an analysis completes the job. -/
theorem c5_mock_mode :
    (∀ (chunks : List DocumentChunk) (frameworks : List String)
       (controls_of : String → List Control) (max_controls : Option ℤ),
      ∀ p ∈ (analyze_document none chunks frameworks controls_of
          max_controls).1.frameworks,
        ∀ ev ∈ p.2.controls,
          ev.final_score = 0 ∧
          ev.compliance_status = "not_evaluated" ∧
          ev.confidence = 0 ∧
          ev.mock = true ∧
          ev.score_justification =
            "LLM evaluation not available. Set GROQ_API_KEY to enable.") ∧
    (∀ (job : Job) (updates : List Progress) (chunks : List DocumentChunk)
       (frameworks : List String) (controls_of : String → List Control)
       (max_controls : Option ℤ) (now : String),
      (run_evaluation job updates
        (.ok (analyze_document none chunks frameworks controls_of
          max_controls).1) now).status = "completed") := by
  constructor
  · intro chunks frameworks controls_of max_controls p hp ev hev
    simp only [analyze_document, List.map_map, List.mem_map,
      Function.comp] at hp
    obtain ⟨fw, hfw, rfl⟩ := hp
    rw [analyze_framework_spec] at hev
    simp only [List.mem_map] at hev
    obtain ⟨c, hc, rfl⟩ := hev
    exact ⟨rfl, rfl, rfl, rfl, rfl⟩
  · intro job updates chunks frameworks controls_of max_controls now
    rfl

/-- Witness for C5 on a one-framework, one-control instance. -/
theorem c5_mock_mode_witness :
    (mock_evaluation sample_control).final_score = 0 ∧
    (mock_evaluation sample_control).compliance_status = "not_evaluated" ∧
    (mock_evaluation sample_control).confidence = 0 ∧
    (mock_evaluation sample_control).mock = true ∧
    (mock_evaluation sample_control).score_justification =
      "LLM evaluation not available. Set GROQ_API_KEY to enable." :=
  c5_mock_mode.1 [] ["nca_en"] (fun _ => [sample_control]) none
    ("nca_en", (analyze_framework none [] "nca_en" [sample_control] none).1)
    (by exact List.Mem.head _) (mock_evaluation sample_control)
    (by exact List.Mem.head _)

/-- C6: the Relevance Ranker scores each chunk by the size of the
intersection of case-insensitive whitespace-token sets, excludes zero
scores, sorts descending by score with ties in original order (stable), and
returns the texts of the top `top_k` chunks. -/
theorem c6_relevance_ranker (control_text : String)
    (chunks : List DocumentChunk) (top_k : ℕ) :
    (find_relevant_chunks control_text chunks top_k).length ≤ top_k ∧
    find_relevant_chunks control_text chunks top_k =
      ((pySortDescBy Prod.fst (scored_chunks control_text chunks)).take
        top_k).map Prod.snd ∧
    (∀ p : ℕ × String, p ∈ scored_chunks control_text chunks ↔
      ∃ ch ∈ chunks,
        overlap_score control_text ch = p.1 ∧ ch.text = p.2 ∧ 0 < p.1) ∧
    (∀ ch : DocumentChunk, overlap_score control_text ch =
      (token_set control_text ∩ token_set ch.text).card) ∧
    (pySortDescBy Prod.fst (scored_chunks control_text chunks)).Pairwise
      (fun a b => b.1 ≤ a.1) ∧
    (∀ s : ℕ,
      (pySortDescBy Prod.fst (scored_chunks control_text chunks)).filter
          (fun p => p.1 == s) =
        (scored_chunks control_text chunks).filter (fun p => p.1 == s)) ∧
    List.Perm (pySortDescBy Prod.fst (scored_chunks control_text chunks))
      (scored_chunks control_text chunks) := by
  refine ⟨?_, rfl, ?_, fun _ => rfl, ?_, ?_, ?_⟩
  · simp only [find_relevant_chunks, List.length_map]
    exact List.length_take_le _ _
  · intro p
    simp only [scored_chunks, List.mem_filterMap]
    constructor
    · rintro ⟨ch, hch, hsome⟩
      split_ifs at hsome with hpos
      injection hsome with h2
      exact ⟨ch, hch, by rw [← h2], by rw [← h2], by rw [← h2]; exact hpos⟩
    · rintro ⟨ch, hch, ho, ht, hp⟩
      refine ⟨ch, hch, ?_⟩
      have hpos : 0 < overlap_score control_text ch := ho ▸ hp
      rw [if_pos hpos, ho, ht]
  · exact pairwise_pySortDescBy Prod.fst _
  · intro s
    exact filter_pySortDescBy Prod.fst _ s
  · exact perm_pySortDescBy Prod.fst _

/-- C7: for a non-empty control list the framework statistics carry the
count, the rounded average score, status and risk histograms, the
fully/non-compliant counts, and `needsAttention` as the number of scores
strictly below 50; the empty list is flagged as an error state; and on
scores `[100, 0, 50, 80]` the average is 57.5 with `needsAttention = 1`. -/
theorem c7_framework_stats :
    calculate_framework_stats [] = .error "No controls evaluated" ∧
    (∀ l : List EvalResult, l ≠ [] →
      ∃ s : FrameworkStats,
        calculate_framework_stats l = .stats s ∧
        s.total_controls = l.length ∧
        s.average_score = pyRound1 ((l.map (·.final_score)).sum / l.length) ∧
        (∀ key : String, hist_get s.status_breakdown key =
          (l.map (·.compliance_status)).count key) ∧
        (∀ key : String, hist_get s.risk_breakdown key =
          (l.map (fun c => c.risk_level.getD "unknown")).count key) ∧
        s.fully_compliant_count =
          (l.map (·.compliance_status)).count "fully_compliant" ∧
        s.non_compliant_count =
          (l.map (·.compliance_status)).count "non_compliant" ∧
        s.needs_attention =
          (l.map (·.final_score)).countP (fun x => decide (x < 50))) ∧
    (stats_of (calculate_framework_stats
        [mkEval 100, mkEval 0, mkEval 50, mkEval 80])).map
      (·.average_score) = some 57.5 ∧
    (stats_of (calculate_framework_stats
        [mkEval 100, mkEval 0, mkEval 50, mkEval 80])).map
      (·.needs_attention) = some 1 := by
  refine ⟨rfl, ?_, ?_, by decide⟩
  · intro l hl
    have hlen : ¬ l.length = 0 := by simpa [List.length_eq_zero] using hl
    simp only [calculate_framework_stats, if_neg hlen]
    refine ⟨_, rfl, rfl, rfl, ?_, ?_, ?_, ?_, rfl⟩
    · intro key
      exact hist_get_hist _ key
    · intro key
      exact hist_get_hist _ key
    · exact hist_get_hist _ "fully_compliant"
    · exact hist_get_hist _ "non_compliant"
  · simp only [calculate_framework_stats]
    rw [if_neg (by decide)]
    simp only [stats_of, Option.map]
    congr 1
    have h1 : (([mkEval 100, mkEval 0, mkEval 50,
        mkEval 80].map (·.final_score)).sum : ℚ) = 230 := by
      simp [mkEval]
      norm_num
    rw [h1]
    have h2 : ((230 : ℚ) / (([mkEval 100, mkEval 0, mkEval 50,
        mkEval 80] : List EvalResult).length : ℚ)) * 10 = 575 := by
      norm_num
    rw [pyRound1, h2]
    have h3 : roundHalfEven 575 = 575 := by
      rw [roundHalfEven]
      have hf : ⌊(575 : ℚ)⌋ = 575 := by norm_num
      rw [hf]
      norm_num
    rw [h3]
    norm_num

/-- Witness for C7 at the concrete score list of the claim. -/
theorem c7_framework_stats_witness :
    ∃ s : FrameworkStats,
      calculate_framework_stats [mkEval 100, mkEval 0, mkEval 50, mkEval 80] =
        .stats s ∧
      s.total_controls = [mkEval 100, mkEval 0, mkEval 50, mkEval 80].length ∧
      s.average_score = pyRound1
        (([mkEval 100, mkEval 0, mkEval 50, mkEval 80].map
          (·.final_score)).sum /
         [mkEval 100, mkEval 0, mkEval 50, mkEval 80].length) ∧
      (∀ key : String, hist_get s.status_breakdown key =
        ([mkEval 100, mkEval 0, mkEval 50, mkEval 80].map
          (·.compliance_status)).count key) ∧
      (∀ key : String, hist_get s.risk_breakdown key =
        ([mkEval 100, mkEval 0, mkEval 50, mkEval 80].map
          (fun c => c.risk_level.getD "unknown")).count key) ∧
      s.fully_compliant_count =
        ([mkEval 100, mkEval 0, mkEval 50, mkEval 80].map
          (·.compliance_status)).count "fully_compliant" ∧
      s.non_compliant_count =
        ([mkEval 100, mkEval 0, mkEval 50, mkEval 80].map
          (·.compliance_status)).count "non_compliant" ∧
      s.needs_attention =
        ([mkEval 100, mkEval 0, mkEval 50, mkEval 80].map
          (·.final_score)).countP (fun x => decide (x < 50)) :=
  c7_framework_stats.2.1 [mkEval 100, mkEval 0, mkEval 50, mkEval 80]
    (by decide)

/-- C8: `topRecommendations` holds only critical/high-priority
recommendations, never exceeds 15 entries, and is the stable
priority-rank sort of the encounter-ordered collection (critical before
high before medium before low, ties in encounter order); `criticalGaps`
holds only controls scoring below 25, capped at the first 10 encountered. -/
theorem c8_summary (framework_results : List (String × FrameworkResult)) :
    (generate_summary framework_results).top_recommendations =
      (pySortAscBy (fun r => priority_rank r.priority)
        (collect_recommendations framework_results)).take 15 ∧
    (generate_summary framework_results).top_recommendations.length ≤ 15 ∧
    (∀ r ∈ (generate_summary framework_results).top_recommendations,
      r.priority = some "critical" ∨ r.priority = some "high") ∧
    (generate_summary framework_results).top_recommendations.Pairwise
      (fun a b => priority_rank a.priority ≤ priority_rank b.priority) ∧
    (∀ pr : ℕ,
      (pySortAscBy (fun r => priority_rank r.priority)
          (collect_recommendations framework_results)).filter
        (fun r => priority_rank r.priority == pr) =
      (collect_recommendations framework_results).filter
        (fun r => priority_rank r.priority == pr)) ∧
    (generate_summary framework_results).critical_gaps =
      (collect_gaps framework_results).take 10 ∧
    (generate_summary framework_results).critical_gaps.length ≤ 10 ∧
    (∀ g ∈ collect_gaps framework_results, g.score < 25) := by
  have hmemrec : ∀ r ∈ collect_recommendations framework_results,
      r.priority = some "critical" ∨ r.priority = some "high" := by
    intro r hr
    simp only [collect_recommendations, List.mem_flatMap, List.mem_map,
      List.mem_filter] at hr
    obtain ⟨q, hq, c, hc, r0, ⟨hr0, hcond⟩, rfl⟩ := hr
    simpa using hcond
  refine ⟨rfl, ?_, ?_, ?_, ?_, rfl, ?_, ?_⟩
  · simp only [generate_summary]
    exact List.length_take_le _ _
  · intro r hr
    have hr2 : r ∈ pySortAscBy (fun r => priority_rank r.priority)
        (collect_recommendations framework_results) :=
      List.mem_of_mem_take hr
    exact hmemrec r
      ((perm_pySortAscBy (fun r : TaggedRec => priority_rank r.priority)
        _).mem_iff.mp hr2)
  · exact (pairwise_pySortAscBy
      (fun r : TaggedRec => priority_rank r.priority) _).sublist
      (List.take_sublist _ _)
  · intro pr
    exact filter_pySortAscBy (fun r : TaggedRec => priority_rank r.priority)
      _ pr
  · simp only [generate_summary]
    exact List.length_take_le _ _
  · intro g hg
    simp only [collect_gaps, List.mem_flatMap, List.mem_map,
      List.mem_filter] at hg
    obtain ⟨q, hq, c, ⟨hc, hlt⟩, rfl⟩ := hg
    simpa using hlt

/-- Witness for C8 on a one-framework result with one critical
recommendation and one sub-25 control. -/
theorem c8_summary_witness :
    (({ priority := some "critical", recommendation := none,
        expected_impact := none, control_id := "c",
        framework := "nca_en" } : TaggedRec).priority = some "critical" ∨
     ({ priority := some "critical", recommendation := none,
        expected_impact := none, control_id := "c",
        framework := "nca_en" } : TaggedRec).priority = some "high") ∧
    ({ control_id := "c", framework := "nca_en", score := 10,
       risk_level := "unknown" } : Gap).score < 25 := by
  have h := c8_summary [("nca_en", sample_framework_result)]
  refine ⟨h.2.2.1 _ ?_, h.2.2.2.2.2.2.2 _ (List.Mem.head _)⟩
  rw [h.1]
  have hcoll : collect_recommendations [("nca_en", sample_framework_result)] =
      [{ priority := some "critical", recommendation := none,
         expected_impact := none, control_id := "c",
         framework := "nca_en" }] := rfl
  rw [show pySortAscBy (fun r : TaggedRec => priority_rank r.priority)
        (collect_recommendations [("nca_en", sample_framework_result)]) =
      [{ priority := some "critical", recommendation := none,
         expected_impact := none, control_id := "c",
         framework := "nca_en" }] by
    rw [hcoll, pySortAscBy, List.mergeSort_singleton]]
  exact List.Mem.head _
